import Mathlib

/-!
Verification development for the vita directory-dumping utility
(rxxuzi/vita, C sources).  The classifier (src/file.c) and the walker
(src/traverse.c, src/utils.c, src/main.c) are shallowly embedded below;
bytes are `Nat` values below 256, file contents are `List Nat`, and the
output sink is a list of the strings the program writes, in order.
-/

namespace Vita

/-- Sample size used by the classifier (`#define BINARY_CHECK_BYTES 2048`
in src/file.c). -/
def BINARY_CHECK_BYTES : Nat := 2048

/-- Embedding of `is_valid_utf8` from src/file.c: scans the sample with
the standard lead-byte / continuation-byte rules; a truncated multi-byte
sequence at the end of the sample is invalid. -/
def is_valid_utf8 : List Nat → Bool
  | [] => true
  | b :: rest =>
    if b ≤ 0x7F then
      is_valid_utf8 rest
    else if b &&& 0xE0 == 0xC0 then
      match rest with
      | [] => false
      | b1 :: rest2 =>
        if b1 &&& 0xC0 == 0x80 then is_valid_utf8 rest2 else false
    else if b &&& 0xF0 == 0xE0 then
      match rest with
      | b1 :: b2 :: rest3 =>
        if b1 &&& 0xC0 == 0x80 && b2 &&& 0xC0 == 0x80 then
          is_valid_utf8 rest3
        else false
      | _ => false
    else if b &&& 0xF8 == 0xF0 then
      match rest with
      | b1 :: b2 :: b3 :: rest4 =>
        if b1 &&& 0xC0 == 0x80 && b2 &&& 0xC0 == 0x80 && b3 &&& 0xC0 == 0x80 then
          is_valid_utf8 rest4
        else false
      | _ => false
    else false
/-- Embedding of `is_valid_shift_jis` from src/file.c: single bytes in
0x00-0x7F or 0xA1-0xDF; lead bytes 0x81-0x9F or 0xE0-0xEF must be
followed by a trail byte in 0x40-0x7E or 0x80-0xFC. -/
def is_valid_shift_jis : List Nat → Bool
  | [] => true
  | c :: rest =>
    if c ≤ 0x7F || (0xA1 ≤ c && c ≤ 0xDF) then
      is_valid_shift_jis rest
    else if (0x81 ≤ c && c ≤ 0x9F) || (0xE0 ≤ c && c ≤ 0xEF) then
      match rest with
      | [] => false
      | c2 :: rest2 =>
        if (0x40 ≤ c2 && c2 ≤ 0x7E) || (0x80 ≤ c2 && c2 ≤ 0xFC) then
          is_valid_shift_jis rest2
        else false
    else false
/-- C's `isprint` on an unsigned char in the "C" locale (the program
never calls `setlocale`): true exactly for 0x20..0x7E. -/
def isprint (b : Nat) : Bool := 0x20 ≤ b && b ≤ 0x7E

/-- The null-byte scan of `is_binary` (src/file.c, loop over the sample:
`if (buf[i] == 0) return 1`). -/
def has_null (sample : List Nat) : Bool := sample.any (fun b => b == 0)

/-- The non-printable counter of `is_binary` (src/file.c):
`!isprint(buf[i]) && buf[i] != '\n' && buf[i] != '\r' && buf[i] != '\t'`
with '\n' = 10, '\r' = 13, '\t' = 9. -/
def non_printable_count (sample : List Nat) : Nat :=
  (sample.filter (fun b => !(isprint b) && b != 10 && b != 13 && b != 9)).length

/-- Spec-level classification outcome. -/
inductive ClassificationResult where
  | Text
  | Binary
  | Unreadable
deriving DecidableEq, Repr

/-- Classification of one byte sample, the body of `is_binary`
(src/file.c lines 77-106) after the sample has been read: UTF-8 check,
then Shift-JIS check, then the null-byte veto, then the non-printable
ratio.  The C ratio test `(double)non_printable / (double)read_len >
0.25` is embedded as `4 * non_printable > read_len`: both operands are
at most 2048 so they are exact doubles, `0.25` is an exact double, the
quotient equals 0.25 exactly iff `read_len = 4 * non_printable` (then
the division is exact), and otherwise the true quotient differs from
0.25 by at least `1/8192`, far above the rounding error of one
division; hence the double comparison and the integer comparison
agree. -/
def classify_sample (sample : List Nat) : ClassificationResult :=
  if is_valid_utf8 sample then ClassificationResult.Text
  else if is_valid_shift_jis sample then ClassificationResult.Text
  else if has_null sample then ClassificationResult.Binary
  else if decide (0 < sample.length) && decide (sample.length < 4 * non_printable_count sample) then
    ClassificationResult.Binary
  else ClassificationResult.Text

/-- Embedding of `is_binary` (src/file.c): `openOk` models whether
`fopen(path, "rb")` (and the buffer allocation) succeeds; `fread(buf, 1,
BINARY_CHECK_BYTES, fp)` reads the first `min(size, 2048)` bytes of the
file, i.e. `content.take BINARY_CHECK_BYTES`.  Returns the C result
code: -1 unreadable, 1 binary, 0 text. -/
def is_binary (openOk : Bool) (content : List Nat) : Int :=
  if !openOk then -1
  else
    match classify_sample (content.take BINARY_CHECK_BYTES) with
    | ClassificationResult.Binary => 1
    | _ => 0

/-- The spec's `classify(path) -> ClassificationResult`, read off from
the `is_binary` result code as its callers do (-1 `Unreadable`,
1 `Binary`, 0 `Text`). -/
def classify (openOk : Bool) (content : List Nat) : ClassificationResult :=
  if is_binary openOk content = -1 then ClassificationResult.Unreadable
  else if is_binary openOk content = 1 then ClassificationResult.Binary
  else ClassificationResult.Text

/-- Embedding of `normalize_path` (src/utils.c): every backslash becomes
a forward slash, then trailing slashes (the C loop also re-tests for
backslashes, already gone) are stripped. -/
def normalize_chars (cs : List Char) : List Char :=
  let mapped := cs.map (fun c => if c = '\\' then '/' else c)
  (mapped.reverse.dropWhile (fun c => c == '/' || c == '\\')).reverse

/-- `normalize_path` on Lean strings. -/
def normalize_path (p : String) : String := String.mk (normalize_chars p.data)

/-- The rule line of `print_file_content` (src/utils.c): the C source
holds it as a string literal of exactly 80 `-` characters. -/
def ruleDash : String := String.mk (List.replicate 80 '-')

/-- The rule line of the root banner (src/main.c): a string literal of
exactly 80 `=` characters. -/
def ruleEq : String := String.mk (List.replicate 80 '=')

/-- What the spec's "raw text content" denotes: the file's bytes
rendered verbatim as a string.  This is NOT the code's echo — the
amended C6 compares the code's chunked echo `echoString` against it. -/
def contentString (content : List Nat) : String :=
  String.mk (content.map Char.ofNat)

/-- Buffer size of the content-echo loop (`#define BUFFER_SIZE 1024` in
src/utils.h), so each `fgets` call reads at most 1023 bytes. -/
def BUFFER_SIZE : Nat := 1024

/-- One `fgets(buffer, n + 1, fp)` call on the remaining bytes: returns
the chunk read — up to and including a newline, or `n` bytes, or the
rest of the file, whichever comes first — and the bytes left unread.
NUL bytes in the stream are read like any other byte. -/
def fgets_chunk : List Nat → Nat → List Nat × List Nat
  | [], _ => ([], [])
  | b :: rest, 0 => ([], b :: rest)
  | b :: rest, n + 1 =>
    if b == 10 then ([b], rest)
    else (b :: (fgets_chunk rest n).1, (fgets_chunk rest n).2)

/-- `fprintf(out, "%s", buffer)` prints the chunk only up to (and
excluding) its first NUL byte; the rest of that chunk is dropped. -/
def printf_s (chunk : List Nat) : List Nat :=
  chunk.takeWhile (fun b => b != 0)

/-- The `while (fgets(buffer, sizeof(buffer), fp)) fprintf(out, "%s",
buffer)` loop of `print_file_content`: the concatenation of the bytes
each `fprintf` actually prints.  The fuel only bounds the number of
iterations; each iteration consumes at least one byte, so
`content.length` fuel is always enough. -/
def fgets_loop : Nat → List Nat → List Nat
  | _, [] => []
  | 0, _ :: _ => []
  | fuel + 1, b :: rest =>
    printf_s (fgets_chunk (b :: rest) (BUFFER_SIZE - 1)).1 ++
      fgets_loop fuel (fgets_chunk (b :: rest) (BUFFER_SIZE - 1)).2

/-- The bytes the content-echo loop writes for a file with the given
content. -/
def echoBytes (content : List Nat) : List Nat :=
  fgets_loop content.length content

/-- The echo rendered as the string written to the sink (the
concatenation of the per-chunk `fprintf("%s")` outputs). -/
def echoString (content : List Nat) : String :=
  String.mk ((echoBytes content).map Char.ofNat)

/-- Embedding of `print_file_content` (src/utils.c): classify, always
print the three header lines, then branch on the result code; on the
text path a second `fopen(path, "r")` (whether it succeeds is `openOk2`)
guards the content echo — the `fgets`/`fprintf("%s")` loop, which drops
the bytes from the first NUL of a chunk to that chunk's end — followed
by one final bare `"\n"`.  The result is the ordered list of strings
written to the sink. -/
def print_file_content (path : String) (openOk1 : Bool) (content : List Nat)
    (openOk2 : Bool) : List String :=
  let bin := is_binary openOk1 content
  let header := [ruleDash ++ "\n", path ++ ":\n", ruleDash ++ "\n"]
  if bin = -1 then header ++ ["Cannot open file: " ++ path ++ "\n\n"]
  else if bin = 1 then header ++ ["This is binary file\n\n"]
  else if !openOk2 then header ++ ["Cannot open file: " ++ path ++ "\n\n"]
  else header ++ [echoString content, "\n"]

/-- Model of one directory entry as the traversal sees it.  For a file:
whether `stat` succeeds, whether the classifier's `fopen` succeeds, the
byte content, and whether the content-echo `fopen` succeeds.  For a
directory: whether `stat` succeeds, whether `opendir` succeeds, and its
children in the order `readdir` yields them ("." and ".." pseudo-entries
are skipped by the C loop and are not modelled). -/
inductive Entry where
  | file (name : String) (statOk : Bool) (openOk1 : Bool)
      (content : List Nat) (openOk2 : Bool)
  | dir (name : String) (statOk : Bool) (openOk : Bool) (children : List Entry)

/-- Everything one traversal emits: the strings written to the output
sink in order, the strings written to standard error in order, and the
depth argument of every invocation of `traverse_directory`. -/
structure WalkResult where
  sink : List String
  err : List String
  calls : List Int
deriving DecidableEq, Repr

/-- The entry-independent body of `traverse_directory` (src/traverse.c):
the depth guard, the `opendir` failure notice, and — when both pass —
the result of the entry loop, with this invocation's depth recorded in
front of the recursive invocations'. -/
def traverse_with (dirPath : String) (openOk : Bool) (depth maxDepth : Int)
    (childrenResult : WalkResult) : WalkResult :=
  if maxDepth ≠ -1 ∧ depth > maxDepth then ⟨[], [], [depth]⟩
  else if !openOk then ⟨["Cannot open directory: " ++ dirPath ++ "\n"], [], [depth]⟩
  else ⟨childrenResult.sink, childrenResult.err, depth :: childrenResult.calls⟩

mutual

/-- The `readdir` loop of `traverse_directory`: entries are processed in
order and their emissions concatenated. -/
def walk_children (es : List Entry) (dirPath : String) (depth maxDepth : Int)
    (outPath : String) : WalkResult :=
  match es with
  | [] => ⟨[], [], []⟩
  | e :: rest =>
    let r1 := walk_entry e dirPath depth maxDepth outPath
    let r2 := walk_children rest dirPath depth maxDepth outPath
    ⟨r1.sink ++ r2.sink, r1.err ++ r2.err, r1.calls ++ r2.calls⟩

/-- One iteration of the `readdir` loop: build and normalize the child
path, `stat` it (failure: `perror("stat")` on standard error, entry
skipped), recurse into a directory only when depth allows, and for a
file skip it when its path equals the output-sink path, otherwise print
its record. -/
def walk_entry (e : Entry) (dirPath : String) (depth maxDepth : Int)
    (outPath : String) : WalkResult :=
  match e with
  | Entry.dir name statOk openOk children =>
    let path := normalize_path (dirPath ++ "/" ++ name)
    if !statOk then ⟨[], ["stat"], []⟩
    else if maxDepth == -1 || depth < maxDepth then
      traverse_with path openOk (depth + 1) maxDepth
        (walk_children children path (depth + 1) maxDepth outPath)
    else ⟨[], [], []⟩
  | Entry.file name statOk openOk1 content openOk2 =>
    let path := normalize_path (dirPath ++ "/" ++ name)
    if !statOk then ⟨[], ["stat"], []⟩
    else if path == outPath then ⟨[], [], []⟩
    else ⟨print_file_content path openOk1 content openOk2, [], []⟩

end

/-- Embedding of `traverse_directory` (src/traverse.c, POSIX branch) for
a directory whose path is `dirPath`, whose `opendir` outcome is `openOk`
and whose entries are `children`. -/
def traverse_directory (dirPath : String) (openOk : Bool) (children : List Entry)
    (depth maxDepth : Int) (outPath : String) : WalkResult :=
  traverse_with dirPath openOk depth maxDepth
    (walk_children children dirPath depth maxDepth outPath)

/-- Model of `main` (src/main.c) from the point where configuration has
succeeded: print the root banner (80-equals rules around the normalized
root path plus a trailing slash), traverse, and return `EXIT_SUCCESS`
(0).  `rootOpenOk` is the root's own `opendir` outcome. -/
def run (rootPath : String) (rootOpenOk : Bool) (children : List Entry)
    (maxDepth : Int) (outPath : String) : WalkResult × Int :=
  let root := normalize_path rootPath
  let banner := [ruleEq ++ "\n", root ++ "/\n", ruleEq ++ "\n"]
  let r := traverse_directory root rootOpenOk children 0 maxDepth outPath
  (⟨banner ++ r.sink, r.err, r.calls⟩, 0)

/-- The record one entry of a directory at the depth limit contributes
to the sink: nothing for a subdirectory (not entered), nothing for a
stat-failed or output-sink file, the printed record otherwise. -/
def entry_file_record (dirPath outPath : String) (e : Entry) : List String :=
  match e with
  | Entry.dir _ _ _ _ => []
  | Entry.file name statOk o1 c o2 =>
    let path := normalize_path (dirPath ++ "/" ++ name)
    if !statOk then []
    else if path == outPath then []
    else print_file_content path o1 c o2

mutual

/-- Every depth recorded under one entry of a directory at depth `d ≤ m`
(with `m ≥ 0`) is at most `m`. -/
theorem calls_bound_entry (e : Entry) (dirPath : String) (d m : Int)
    (out : String) (hm : 0 ≤ m) (hd : d ≤ m) :
    ∀ k ∈ (walk_entry e dirPath d m out).calls, k ≤ m := by
  match e with
  | Entry.file name statOk o1 c o2 =>
    intro k hk
    simp only [walk_entry] at hk
    split at hk
    · simp at hk
    · split at hk
      · simp at hk
      · simp at hk
  | Entry.dir name statOk openOk children =>
    intro k hk
    simp only [walk_entry] at hk
    split at hk
    · simp at hk
    · split at hk
      · rename_i hcond
        have hm1 : (m == (-1 : Int)) = false := by
          simp only [beq_eq_false_iff_ne, ne_eq]
          omega
        rw [hm1, Bool.false_or, decide_eq_true_eq] at hcond
        simp only [traverse_with] at hk
        split at hk
        · rename_i hg
          simp only [List.mem_singleton] at hk
          omega
        · split at hk
          · simp only [List.mem_singleton] at hk
            omega
          · simp only [List.mem_cons] at hk
            rcases hk with hk | hk
            · omega
            · exact calls_bound_children children
                (normalize_path (dirPath ++ "/" ++ name)) (d + 1) m out hm
                (by omega) k hk
      · simp at hk

/-- Every depth recorded by the entry loop of a directory at depth
`d ≤ m` (with `m ≥ 0`) is at most `m`. -/
theorem calls_bound_children (es : List Entry) (dirPath : String) (d m : Int)
    (out : String) (hm : 0 ≤ m) (hd : d ≤ m) :
    ∀ k ∈ (walk_children es dirPath d m out).calls, k ≤ m := by
  match es with
  | [] =>
    intro k hk
    simp [walk_children] at hk
  | e :: rest =>
    intro k hk
    simp only [walk_children, List.mem_append] at hk
    rcases hk with hk | hk
    · exact calls_bound_entry e dirPath d m out hm hd k hk
    · exact calls_bound_children rest dirPath d m out hm hd k hk

end

/-- At depth `m = maxDepth ≥ 0` the entry loop emits exactly the file
records (subdirectories are not entered) and performs no recursive
invocation. -/
theorem walk_children_at_max (es : List Entry) (dirPath : String) (m : Int)
    (out : String) (hm : 0 ≤ m) :
    (walk_children es dirPath m m out).sink =
      (es.map (entry_file_record dirPath out)).flatten ∧
    (walk_children es dirPath m m out).calls = [] := by
  induction es with
  | nil => simp [walk_children]
  | cons e rest ih =>
    have he : (walk_entry e dirPath m m out).sink = entry_file_record dirPath out e ∧
        (walk_entry e dirPath m m out).calls = [] := by
      match e with
      | Entry.file name statOk o1 c o2 =>
        simp only [walk_entry, entry_file_record]
        split
        · simp
        · split
          · simp
          · simp
      | Entry.dir name statOk openOk children =>
        have hm1 : (m == (-1 : Int)) = false := by
          simp only [beq_eq_false_iff_ne, ne_eq]
          omega
        have hlt : decide (m < m) = false := by simp
        simp only [walk_entry, entry_file_record, hm1, hlt, Bool.false_or]
        split
        · simp
        · simp
    simp only [walk_children, List.map_cons, List.flatten_cons]
    exact ⟨by rw [he.1, ih.1], by simp [he.2, ih.2]⟩

/-- C1 (counterexample): the sample consisting of the single byte 0x00
contains a null byte, yet `classify` returns `Text`, because 0x00 is
accepted by the UTF-8 validator as an ASCII byte and the null-byte veto
is only reached after both encoding validations fail. -/
theorem C1_null_byte_counterexample :
    has_null [0] = true ∧
    classify_sample [0] ≠ ClassificationResult.Binary ∧
    classify_sample [0] = ClassificationResult.Text ∧
    classify true [0] = ClassificationResult.Text := by
  decide

/-- C1 (amended): for every byte sample that fails both the UTF-8 and
the Shift-JIS validation, a 0x00 byte anywhere in the sample forces
`Binary`; a null byte does not override a successful UTF-8 or Shift-JIS
validation, since 0x00 is accepted by both validators as a single-byte
character. -/
theorem C1_null_veto_after_validation (s : List Nat)
    (h1 : is_valid_utf8 s = false) (h2 : is_valid_shift_jis s = false)
    (h3 : has_null s = true) :
    classify_sample s = ClassificationResult.Binary := by
  simp [classify_sample, h1, h2, h3]

/-- C1 (witness): the sample `[0xFF, 0x00]` fails both validations,
contains a null byte, and is classified `Binary`. -/
theorem C1_null_veto_after_validation_witness :
    classify_sample [0xFF, 0] = ClassificationResult.Binary :=
  C1_null_veto_after_validation [0xFF, 0] (by decide) (by decide) (by decide)

/-- C4: every byte sample that passes the UTF-8 validation (standard
lead-byte length and continuation-byte rules, no truncated trailing
sequence) is classified `Text`. -/
theorem C4_utf8_text (s : List Nat) (h : is_valid_utf8 s = true) :
    classify_sample s = ClassificationResult.Text := by
  simp [classify_sample, h]

/-- C4 (witness): the UTF-8 encoding of "hé", `[0x68, 0xC3, 0xA9]`, is
valid UTF-8 and is classified `Text`. -/
theorem C4_utf8_text_witness :
    classify_sample [0x68, 0xC3, 0xA9] = ClassificationResult.Text :=
  C4_utf8_text [0x68, 0xC3, 0xA9] (by decide)

/-- C5: for a non-empty sample that fails both encoding validations and
has no null byte, the classification is `Binary` exactly when the
non-printable count strictly exceeds a quarter of the sample length
(`4 * count > N`), and `Text` at or below the boundary (`4 * count ≤ N`,
which includes exactly 25%). -/
theorem C5_ratio_threshold (s : List Nat) (hne : s ≠ [])
    (h1 : is_valid_utf8 s = false) (h2 : is_valid_shift_jis s = false)
    (h3 : has_null s = false) :
    (s.length < 4 * non_printable_count s →
      classify_sample s = ClassificationResult.Binary) ∧
    (4 * non_printable_count s ≤ s.length →
      classify_sample s = ClassificationResult.Text) := by
  have hlen : 0 < s.length := List.length_pos.mpr hne
  constructor
  · intro h
    simp [classify_sample, h1, h2, h3, hlen, h]
  · intro h
    have hn : ¬ (s.length < 4 * non_printable_count s) := by omega
    simp [classify_sample, h1, h2, h3, hn]

/-- C5 (witness): `[0xFF, 0xFF, 0x41, 0x41]` (2 of 4 bytes
non-printable, 50% > 25%) is `Binary`, while `[0xFF, 0x41, 0x41, 0x41]`
(1 of 4, exactly 25%) is `Text`; both fail both validations and are
null-free. -/
theorem C5_ratio_threshold_witness :
    classify_sample [0xFF, 0xFF, 0x41, 0x41] = ClassificationResult.Binary ∧
    classify_sample [0xFF, 0x41, 0x41, 0x41] = ClassificationResult.Text :=
  ⟨(C5_ratio_threshold [0xFF, 0xFF, 0x41, 0x41] (by decide) (by decide)
      (by decide) (by decide)).1 (by decide),
   (C5_ratio_threshold [0xFF, 0x41, 0x41, 0x41] (by decide) (by decide)
      (by decide) (by decide)).2 (by decide)⟩

/-- C8: classification is a deterministic function of the first
`BINARY_CHECK_BYTES` (2048) bytes: two files whose contents agree on
that prefix (`fread` returns exactly `min(size, 2048)` bytes) get the
same `is_binary` result code and the same `classify` result, whatever
lies beyond the boundary. -/
theorem C8_sample_determinism (c1 c2 : List Nat) (o : Bool)
    (h : c1.take BINARY_CHECK_BYTES = c2.take BINARY_CHECK_BYTES) :
    is_binary o c1 = is_binary o c2 ∧ classify o c1 = classify o c2 := by
  have hb : is_binary o c1 = is_binary o c2 := by
    unfold is_binary
    rw [h]
  exact ⟨hb, by unfold classify; rw [hb]⟩

/-- C8 (witness): 2048 copies of 0x41 followed by 0x42, versus the same
prefix followed by 0x00: the byte past the boundary differs, the
classifications agree. -/
theorem C8_sample_determinism_witness :
    is_binary true (List.replicate 2048 0x41 ++ [0x42]) =
      is_binary true (List.replicate 2048 0x41 ++ [0x00]) ∧
    classify true (List.replicate 2048 0x41 ++ [0x42]) =
      classify true (List.replicate 2048 0x41 ++ [0x00]) :=
  C8_sample_determinism (List.replicate 2048 0x41 ++ [0x42])
    (List.replicate 2048 0x41 ++ [0x00]) true
    (by
      rw [show BINARY_CHECK_BYTES = 2048 from rfl,
        List.take_left' (List.length_replicate 2048 0x41),
        List.take_left' (List.length_replicate 2048 0x41)])

/-! ## Walker claims -/

/-- C3: with a configured `maxDepth = m ≥ 0`, (1) every invocation of
`traverse_directory` starting from any depth `d ≤ m` (the root starts at
0) is recorded at a depth of at most `m`, so traversal never visits a
path deeper than `m`; and (2) a directory reached at depth `m` is still
enumerated — its sink output is exactly the concatenation of its file
records — while none of its subdirectories is entered (its only
recorded invocation is its own, at depth `m`). -/
theorem C3_depth_bound (children : List Entry) (dirPath : String)
    (openOk : Bool) (m d : Int) (out : String) (hm : 0 ≤ m) (hd : d ≤ m) :
    (∀ k ∈ (traverse_directory dirPath openOk children d m out).calls, k ≤ m) ∧
    (traverse_directory dirPath true children m m out).sink =
      (children.map (entry_file_record dirPath out)).flatten ∧
    (traverse_directory dirPath true children m m out).calls = [m] := by
  refine ⟨?_, ?_, ?_⟩
  · intro k hk
    simp only [traverse_directory, traverse_with] at hk
    split at hk
    · rename_i hg
      simp only [List.mem_singleton] at hk
      omega
    · split at hk
      · simp only [List.mem_singleton] at hk
        omega
      · simp only [List.mem_cons] at hk
        rcases hk with hk | hk
        · omega
        · exact calls_bound_children children dirPath d m out hm hd k hk
  · have hg : ¬ (m ≠ -1 ∧ m > m) := by omega
    have hw := walk_children_at_max children dirPath m out hm
    simp [traverse_directory, traverse_with, hg, hw.1]
  · have hg : ¬ (m ≠ -1 ∧ m > m) := by omega
    have hw := walk_children_at_max children dirPath m out hm
    simp [traverse_directory, traverse_with, hg, hw.2]

/-- C3 (witness): a root with one file and one subdirectory holding a
deeper subdirectory, walked with `maxDepth = 1` from depth 0. -/
theorem C3_depth_bound_witness :
    (∀ k ∈ (traverse_directory "r" true
        [Entry.dir "a" true true [Entry.dir "b" true true []],
         Entry.file "f" true true [0x41] true] 0 1 "").calls, k ≤ 1) ∧
    (traverse_directory "r" true
        [Entry.dir "a" true true [Entry.dir "b" true true []],
         Entry.file "f" true true [0x41] true] 1 1 "").sink =
      ([Entry.dir "a" true true [Entry.dir "b" true true []],
        Entry.file "f" true true [0x41] true].map
        (entry_file_record "r" "")).flatten ∧
    (traverse_directory "r" true
        [Entry.dir "a" true true [Entry.dir "b" true true []],
         Entry.file "f" true true [0x41] true] 1 1 "").calls = [1] :=
  C3_depth_bound
    [Entry.dir "a" true true [Entry.dir "b" true true []],
     Entry.file "f" true true [0x41] true] "r" true 1 0 ""
    (by decide) (by decide)

/-- C2 (code bug, evaluated at the failing input): the user runs the
tool from `/home/user` with the relative root `.` and `-o out.txt`,
where `out.txt` lies inside the root; `main` resolves the output sink to
the absolute `/home/user/out.txt`, but the walker compares it with the
path `./out.txt` built from the unresolved root, so the output file is
classified, read and emitted as a record — the spec's exclusion
invariant fails for a relative root. -/
theorem C2_output_sink_reread :
    (run "." true [Entry.file "out.txt" true true [0x68, 0x69, 10] true]
        (-1) "/home/user/out.txt").1.sink =
      [ruleEq ++ "\n", "./\n", ruleEq ++ "\n",
       ruleDash ++ "\n", "./out.txt:\n", ruleDash ++ "\n", "hi\n", "\n"] := by
  decide

/-- One `fgets` chunk and its leftover reassemble to the input. -/
theorem fgets_chunk_append : ∀ (content : List Nat) (n : Nat),
    (fgets_chunk content n).1 ++ (fgets_chunk content n).2 = content
  | [], _ => by simp [fgets_chunk]
  | _ :: _, 0 => by simp [fgets_chunk]
  | b :: rest, n + 1 => by
    simp only [fgets_chunk]
    split
    · simp
    · simp [fgets_chunk_append rest n]

/-- With capacity left, `fgets` on a non-empty stream reads at least
one byte. -/
theorem fgets_chunk_ne_nil (b : Nat) (rest : List Nat) (n : Nat)
    (hn : 0 < n) : (fgets_chunk (b :: rest) n).1 ≠ [] := by
  match n, hn with
  | n + 1, _ =>
    simp only [fgets_chunk]
    split
    · simp
    · simp

/-- Hence each loop iteration strictly shrinks the unread stream. -/
theorem fgets_chunk_rest_lt (b : Nat) (rest : List Nat) (n : Nat)
    (hn : 0 < n) :
    (fgets_chunk (b :: rest) n).2.length < (b :: rest).length := by
  have h1 := fgets_chunk_append (b :: rest) n
  have h2 := fgets_chunk_ne_nil b rest n hn
  have h3 : (fgets_chunk (b :: rest) n).1.length +
      (fgets_chunk (b :: rest) n).2.length = (b :: rest).length := by
    rw [← List.length_append, h1]
  have h4 : 0 < (fgets_chunk (b :: rest) n).1.length :=
    List.length_pos.mpr h2
  omega

/-- `fprintf("%s")` prints a NUL-free chunk in full. -/
theorem printf_s_no_null (c : List Nat) (h : ∀ b ∈ c, b ≠ 0) :
    printf_s c = c := by
  unfold printf_s
  induction c with
  | nil => rfl
  | cons b rest ih =>
    have hb : (b != 0) = true := by
      simpa using h b (by simp)
    rw [List.takeWhile_cons, hb]
    simp only [if_true]
    rw [ih (fun x hx => h x (by simp [hx]))]

/-- For NUL-free content the echo loop reproduces the content
byte-for-byte (with fuel at least the content length). -/
theorem fgets_loop_no_null : ∀ (fuel : Nat) (content : List Nat),
    content.length ≤ fuel → (∀ b ∈ content, b ≠ 0) →
    fgets_loop fuel content = content
  | fuel, [], _, _ => by cases fuel <;> rfl
  | 0, b :: rest, hf, _ => by simp at hf
  | fuel + 1, b :: rest, hf, h => by
    have happ := fgets_chunk_append (b :: rest) (BUFFER_SIZE - 1)
    have hlt := fgets_chunk_rest_lt b rest (BUFFER_SIZE - 1) (by decide)
    have hc : ∀ x ∈ (fgets_chunk (b :: rest) (BUFFER_SIZE - 1)).1, x ≠ 0 := by
      intro x hx
      exact h x (by rw [← happ]; exact List.mem_append_left _ hx)
    have hr : ∀ x ∈ (fgets_chunk (b :: rest) (BUFFER_SIZE - 1)).2, x ≠ 0 := by
      intro x hx
      exact h x (by rw [← happ]; exact List.mem_append_right _ hx)
    have hf2 : (fgets_chunk (b :: rest) (BUFFER_SIZE - 1)).2.length ≤ fuel := by
      simp only [List.length_cons] at hf hlt
      omega
    simp only [fgets_loop]
    rw [printf_s_no_null _ hc,
      fgets_loop_no_null fuel (fgets_chunk (b :: rest) (BUFFER_SIZE - 1)).2 hf2 hr,
      happ]

/-- NUL-free content is echoed verbatim. -/
theorem echoBytes_no_null (content : List Nat) (h : ∀ b ∈ content, b ≠ 0) :
    echoBytes content = content :=
  fgets_loop_no_null content.length content le_rfl h

/-- C6 (counterexample): two concrete files refute the claimed body
enumeration.  First, content `"hi\n"` is classified `Text` — the claim
prescribes the raw content — but the second `fopen`, the content
re-open, fails and the emitted body is the "Cannot open file" notice.
Second, content `[0x00, 0x41]` is classified `Text` (0x00 passes the
UTF-8 check) and both opens succeed, yet the body is not the raw
content: `fprintf("%s")` stops at the NUL, so the echo is empty. -/
theorem C6_record_counterexample :
    (classify true [0x68, 0x69, 10] = ClassificationResult.Text ∧
     print_file_content "p" true [0x68, 0x69, 10] false =
       [ruleDash ++ "\n", "p:\n", ruleDash ++ "\n",
        "Cannot open file: p\n\n"] ∧
     print_file_content "p" true [0x68, 0x69, 10] false ≠
       [ruleDash ++ "\n", "p:\n", ruleDash ++ "\n",
        contentString [0x68, 0x69, 10], "\n"]) ∧
    (classify true [0x00, 0x41] = ClassificationResult.Text ∧
     print_file_content "q" true [0x00, 0x41] true =
       [ruleDash ++ "\n", "q:\n", ruleDash ++ "\n", "", "\n"] ∧
     print_file_content "q" true [0x00, 0x41] true ≠
       [ruleDash ++ "\n", "q:\n", ruleDash ++ "\n",
        contentString [0x00, 0x41], "\n"]) := by
  decide

/-- C6 (amended): every file record is exactly the 80-dash rule line,
the normalized path plus `:`, a second identical rule line, then the
"cannot open" notice if `Unreadable`, the "binary file" notice if
`Binary`, the "cannot open" notice if the file was classified `Text`
but the content re-open fails, and otherwise the content as the
`fgets`/`fprintf("%s")` loop echoes it — byte-for-byte equal to the raw
content whenever the content has no NUL byte (final conjunct) —
followed by one trailing blank line (the final bare newline); the rule
lines are exactly 80 `-` characters and the root banner's are exactly
80 `=` characters. -/
theorem C6_record_format (path : String) (o1 : Bool) (content : List Nat)
    (o2 : Bool) (rootPath : String) (rootOk : Bool) (children : List Entry)
    (m : Int) (out : String) :
    print_file_content path o1 content o2 =
      [ruleDash ++ "\n", path ++ ":\n", ruleDash ++ "\n"] ++
      (if classify o1 content = ClassificationResult.Unreadable then
          ["Cannot open file: " ++ path ++ "\n\n"]
        else if classify o1 content = ClassificationResult.Binary then
          ["This is binary file\n\n"]
        else if !o2 then ["Cannot open file: " ++ path ++ "\n\n"]
        else [echoString content, "\n"]) ∧
    ruleDash.length = 80 ∧ (∀ c ∈ ruleDash.data, c = '-') ∧
    ruleEq.length = 80 ∧ (∀ c ∈ ruleEq.data, c = '=') ∧
    (run rootPath rootOk children m out).1.sink.take 3 =
      [ruleEq ++ "\n", normalize_path rootPath ++ "/\n", ruleEq ++ "\n"] ∧
    ((∀ b ∈ content, b ≠ 0) → echoString content = contentString content) := by
  refine ⟨?_, by decide, by decide, by decide, by decide, ?_, ?_⟩
  · by_cases h1 : is_binary o1 content = -1
    · simp [print_file_content, classify, h1]
    · by_cases h2 : is_binary o1 content = 1
      · simp [print_file_content, classify, h1, h2]
      · cases o2 <;> simp [print_file_content, classify, h1, h2]
  · simp [run, List.take]
  · intro h
    unfold echoString contentString
    rw [echoBytes_no_null content h]

/-- C6 (witness): the amended record equation and the NUL-free echo
fact, instantiated at the `Text` content `"hi\n"` with both opens
succeeding. -/
theorem C6_record_format_witness :
    print_file_content "p" true [0x68, 0x69, 10] true =
      [ruleDash ++ "\n", "p:\n", ruleDash ++ "\n"] ++
      (if classify true [0x68, 0x69, 10] = ClassificationResult.Unreadable then
          ["Cannot open file: p\n\n"]
        else if classify true [0x68, 0x69, 10] = ClassificationResult.Binary then
          ["This is binary file\n\n"]
        else if !true then ["Cannot open file: p\n\n"]
        else [echoString [0x68, 0x69, 10], "\n"]) ∧
    echoString [0x68, 0x69, 10] = contentString [0x68, 0x69, 10] :=
  by
  refine ⟨(C6_record_format "p" true [0x68, 0x69, 10] true
    "r" true [] (-1) "").1, ?_⟩
  exact (C6_record_format "p" true [0x68, 0x69, 10] true
    "r" true [] (-1) "").2.2.2.2.2.2 (by decide)

/-- C7: once traversal has started, soft errors stay inline and local:
a directory whose `opendir` fails (reached within the depth bound)
contributes exactly the "Cannot open directory" notice to the sink; the
entry loop processes a failing entry and then still processes all its
siblings (the emissions concatenate); a file whose `fopen` fails gets
the "Cannot open file" notice inside its record; and the run returns
exit code 0 regardless. -/
theorem C7_soft_errors (p : String) (ch : List Entry) (d m : Int)
    (out fpath : String) (c : List Nat) (o2 : Bool) (e : Entry)
    (rest : List Entry) (rootPath : String) (rootOk : Bool)
    (hguard : ¬ (m ≠ -1 ∧ d > m)) :
    traverse_directory p false ch d m out =
      ⟨["Cannot open directory: " ++ p ++ "\n"], [], [d]⟩ ∧
    (walk_children (e :: rest) p d m out).sink =
      (walk_entry e p d m out).sink ++ (walk_children rest p d m out).sink ∧
    print_file_content fpath false c o2 =
      [ruleDash ++ "\n", fpath ++ ":\n", ruleDash ++ "\n",
       "Cannot open file: " ++ fpath ++ "\n\n"] ∧
    (run rootPath rootOk ch m out).2 = 0 := by
  refine ⟨?_, ?_, ?_, ?_⟩
  · simp [traverse_directory, traverse_with, hguard]
  · simp [walk_children]
  · simp [print_file_content, is_binary]
  · simp [run]

/-- C7 (witness): an unopenable subdirectory of an unlimited-depth run,
followed by a sibling file, plus an unreadable file and the run's exit
code, all at concrete inputs. -/
theorem C7_soft_errors_witness :
    traverse_directory "r" false [Entry.dir "bad" true false []] 0 (-1) "" =
      ⟨["Cannot open directory: r\n"], [], [0]⟩ ∧
    (walk_children [Entry.dir "bad" true false [],
        Entry.file "ok.txt" true true [0x41] true] "r" 0 (-1) "").sink =
      (walk_entry (Entry.dir "bad" true false []) "r" 0 (-1) "").sink ++
      (walk_children [Entry.file "ok.txt" true true [0x41] true]
        "r" 0 (-1) "").sink ∧
    print_file_content "r/secret" false [] true =
      [ruleDash ++ "\n", "r/secret:\n", ruleDash ++ "\n",
       "Cannot open file: r/secret\n\n"] ∧
    (run "r" true [Entry.dir "bad" true false []] (-1) "").2 = 0 :=
  C7_soft_errors "r" [Entry.dir "bad" true false []] 0 (-1) "" "r/secret" [] true
    (Entry.dir "bad" true false [])
    [Entry.file "ok.txt" true true [0x41] true] "r" true
    (by decide)

/-- C9: an entry whose `stat` fails — directory or file — is skipped:
it contributes nothing to the output sink, its diagnostic (`perror`)
goes to standard error only, and the entry loop continues with the
remaining entries of the same directory. -/
theorem C9_stat_skip (dirPath : String) (d m : Int) (out name : String)
    (ok o1 o2 : Bool) (ch : List Entry) (c : List Nat) (rest : List Entry) :
    walk_entry (Entry.dir name false ok ch) dirPath d m out =
      ⟨[], ["stat"], []⟩ ∧
    walk_entry (Entry.file name false o1 c o2) dirPath d m out =
      ⟨[], ["stat"], []⟩ ∧
    (walk_children (Entry.dir name false ok ch :: rest) dirPath d m out).sink =
      (walk_children rest dirPath d m out).sink ∧
    (walk_children (Entry.file name false o1 c o2 :: rest) dirPath d m out).sink =
      (walk_children rest dirPath d m out).sink ∧
    (walk_children (Entry.file name false o1 c o2 :: rest) dirPath d m out).err =
      "stat" :: (walk_children rest dirPath d m out).err ∧
    (walk_children (Entry.dir name false ok ch :: rest) dirPath d m out).err =
      "stat" :: (walk_children rest dirPath d m out).err := by
  refine ⟨by simp [walk_entry], by simp [walk_entry], ?_, ?_, ?_, ?_⟩ <;>
    simp [walk_children, walk_entry]

/-- C10: the model's two open outcomes are the record's two `fopen`
calls (the classification sample and the content read); when the first
succeeds, the content is classified `Text`, and the second fails, the
record still carries its full header — both rule lines and the path
line — followed by the "Cannot open file" notice ending in a blank
line. -/
theorem C10_reopen_failure (path : String) (content : List Nat)
    (h : classify true content = ClassificationResult.Text) :
    print_file_content path true content false =
      [ruleDash ++ "\n", path ++ ":\n", ruleDash ++ "\n",
       "Cannot open file: " ++ path ++ "\n\n"] := by
  have h1 : ¬ is_binary true content = -1 := by
    intro hb
    simp [classify, hb] at h
  have h2 : ¬ is_binary true content = 1 := by
    intro hb
    simp [classify, hb] at h
  simp [print_file_content, h1, h2]

/-- C10 (witness): content `"hi\n"` is classified `Text`; with the
content re-open failing, the record is the header plus the notice. -/
theorem C10_reopen_failure_witness :
    print_file_content "p" true [0x68, 0x69, 10] false =
      [ruleDash ++ "\n", "p:\n", ruleDash ++ "\n",
       "Cannot open file: p\n\n"] :=
  C10_reopen_failure "p" [0x68, 0x69, 10] (by decide)

end Vita

